import Mathlib

/-!
Verification of the wildfire GOES data-retrieval core.

Shallow embedding of `wildfire/goes/sequence.py`, `wildfire/goes/downloader.py`
and the boundary of `wildfire/goes/band.py`.  Datetimes at minute precision are
embedded as integers (minutes); the structured store-key hierarchy used by the
glob planner is embedded as a record of calendar fields.  Fallible Python code
returns `Except`; the builder loop of `get_goes_sequence` is given an explicit
fuel bound, `none` meaning the loop did not finish within the bound (for every
bound, in the non-termination theorems).

Code of the repository that is not under src (`wildfire/goes/utilities.py`,
`wildfire/goes/scan.py`, `downloader.query_s3`) is modelled from the spec; each
such definition carries a doc comment starting with `Modelled from the spec:`.
-/

namespace Wildfire

/-! ## Data model of the temporal aligner (times are minutes, as integers) -/

/-- One discovered store object: a single band file of one scan.  Embeds the
attributes of an S3 listing entry that the sequence builder consumes
(`scan start time`, band number, creation stamp, satellite, region). -/
structure S3Scan where
  scanStart : Int
  band : Nat
  createdAt : Int
  satellite : String
  region : String
deriving DecidableEq, Repr

/-- One in-memory scan, the boundary of `wildfire.goes.scan.GoesScan` as used by
`sequence.py`: its scan time, satellite, region and the advisory band count. -/
structure GoesScan where
  scan_time_utc : Int
  satellite : String
  region : String
  bandCount : Nat
deriving DecidableEq, Repr

/-- A Python value handed to `GoesSequence.__init__`: either a genuine
`GoesScan` or a value of some other type (its type name retained for the
`ValueError` message of `_assert_input_goes_scan`). -/
inductive PyObj where
  | scan (s : GoesScan)
  | other (typeName : String)
deriving DecidableEq, Repr

def PyObj.isGoesScan : PyObj → Bool
  | .scan _ => true
  | .other _ => false

def PyObj.typeName : PyObj → String
  | .scan _ => "GoesScan"
  | .other t => t

def PyObj.asScan : PyObj → GoesScan
  | .scan s => s
  | .other _ => { scan_time_utc := 0, satellite := "", region := "", bandCount := 0 }

/-- The Python exceptions reachable in the embedded code: `ValueError` raised by
`_assert_input_goes_scan`, and `IndexError` raised by `scans[0]` on an empty
list in `GoesSequence.__init__`.  The code defines no other error class; in
particular no `EmptyRangeError` exists. -/
inductive PyError where
  | valueError (msg : String)
  | indexError
deriving DecidableEq, Repr

/-! ## Python dict semantics (insertion order, last value per key wins) -/

/-- Assignment `d[k] = v` on a Python dict kept as an ordered association list:
an existing key keeps its position and gets the new value, a new key is
appended. -/
def pyDictInsert (d : List (Int × GoesScan)) (k : Int) (v : GoesScan) :
    List (Int × GoesScan) :=
  if d.any (fun p => decide (p.1 = k)) then
    d.map (fun p => if p.1 = k then (k, v) else p)
  else d ++ [(k, v)]

/-- The dict comprehension of `GoesSequence._parse_input`: fold the pairs into
an initially empty dict, so the last value for each key wins. -/
def pyDictOfList (l : List (Int × GoesScan)) : List (Int × GoesScan) :=
  l.foldl (fun d p => pyDictInsert d p.1 p.2) []

/-- Lookup `d[k]` on the ordered association list. -/
def pyDictGet (d : List (Int × GoesScan)) (k : Int) : Option GoesScan :=
  (d.find? (fun p => decide (p.1 = k))).map Prod.snd

/-- The re-keying of `_parse_input`: sort the keys and rebuild the dict in key
order (`{key: parsed[key] for key in ordered_keys}`). -/
def pyDictSortedByKey (d : List (Int × GoesScan)) : List (Int × GoesScan) :=
  ((d.map Prod.fst).insertionSort (· ≤ ·)).map
    (fun k => (k, (pyDictGet d k).getD
      { scan_time_utc := 0, satellite := "", region := "", bandCount := 0 }))

/-! ## GoesSequence (sequence.py lines 71-189) -/

/-- The constructed sequence: ordered scans dict plus the attributes set by
`__init__`. -/
structure GoesSequence where
  scans : List (Int × GoesScan)
  satellite : String
  region : String
  first_scan_utc : Int
  last_scan_utc : Int
deriving DecidableEq, Repr

/-- Embedding of `_assert_input_goes_scan` (sequence.py lines 184-189): raise `ValueError` at
the first element that is not a `GoesScan`. -/
def _assert_input_goes_scan (scans : List PyObj) : Except PyError Unit :=
  match scans.find? (fun o => ! o.isGoesScan) with
  | some o => .error (.valueError
      ("Input must be of type list of GoesScan. Found " ++ o.typeName))
  | none => .ok ()

/-- Embedding of `min(self.scans.keys())`; the empty case is unreachable on the `ok` path. -/
def minKeys (d : List (Int × GoesScan)) : Int :=
  match d with
  | [] => 0
  | p :: rest => rest.foldl (fun m q => min m q.1) p.1

/-- Embedding of `max(self.scans.keys())`. -/
def maxKeys (d : List (Int × GoesScan)) : Int :=
  match d with
  | [] => 0
  | p :: rest => rest.foldl (fun m q => max m q.1) p.1

/-- Embedding of `GoesSequence._parse_input` (sequence.py lines 125-130): assert the element
types, build the dict keyed by scan time (last duplicate wins), then rebuild it
with sorted keys. -/
def GoesSequence._parse_input (scans : List PyObj) :
    Except PyError (List (Int × GoesScan)) :=
  match _assert_input_goes_scan scans with
  | .error e => .error e
  | .ok _ => .ok (pyDictSortedByKey (pyDictOfList
      (scans.map (fun o => (o.asScan.scan_time_utc, o.asScan)))))

/-- Embedding of `GoesSequence.__init__` (sequence.py lines 89-105): parse the input (which
can raise `ValueError`), then read `scans[0]` (which raises `IndexError` on an
empty list) and set the satellite/region from the first input element and the
first/last scan times from the dict keys. -/
def GoesSequence.init (scans : List PyObj) : Except PyError GoesSequence :=
  match GoesSequence._parse_input scans with
  | .error e => .error e
  | .ok parsed =>
    match scans with
    | [] => .error PyError.indexError
    | first :: _ =>
      .ok { scans := parsed
          , satellite := first.asScan.satellite
          , region := first.asScan.region
          , first_scan_utc := minKeys parsed
          , last_scan_utc := maxKeys parsed }

/-! ## Temporal alignment (spec-modelled collaborators plus the builder loop) -/

/-- Modelled from the spec: `wildfire.goes.utilities` is not under src.  Per
section 4.3, within one scan-time cluster two keys claiming the same band are
resolved by keeping the one with the later creation stamp, so a cluster holds
at most one key per band. -/
def dedupBands (objs : List S3Scan) : List S3Scan :=
  objs.foldl (fun acc o =>
    match acc.find? (fun a => decide (a.band = o.band)) with
    | none => acc ++ [o]
    | some a =>
        if a.createdAt < o.createdAt then
          acc.map (fun x => if x.band = o.band then o else x)
        else acc) []

/-- The scan-start time whose distance to the desired time is smallest, ties
resolved toward the earlier time (spec section 4.3). -/
def pickClosest (desired : Int) (times : List Int) : Option Int :=
  times.foldl (fun best t =>
    match best with
    | none => some t
    | some b =>
        if (t - desired).natAbs < (b - desired).natAbs then some t
        else if (t - desired).natAbs = (b - desired).natAbs ∧ t < b then some t
        else some b) none

/-- Modelled from the spec: `wildfire.goes.utilities.find_scans_closest_to_time`
is not under src (only its call site in `get_goes_sequence`).  Per section 4.3
it groups the discovered keys by scan start time, picks the cluster whose
representative time is closest to the desired time (absolute difference, ties
toward the earlier time) and returns the members of that cluster, one key per
band.  It receives no cadence, hence applies no tolerance window.  An empty
input yields an empty cluster. -/
def find_scans_closest_to_time (s3_scans : List S3Scan) (desired_time : Int) :
    List S3Scan :=
  match pickClosest desired_time ((s3_scans.map (fun o => o.scanStart)).dedup) with
  | none => []
  | some t => dedupBands (s3_scans.filter (fun o => decide (o.scanStart = t)))

/-- Modelled from the spec: `wildfire.goes.scan.read_netcdfs` is not under src.
Per sections 3 and 4.3 it assembles one observation from the per-band files of
a cluster: representative time is the minimum scan start across the members,
satellite and region are shared by the members, and the band count is the
number of distinct bands found (advisory completeness metadata). -/
def read_netcdfs (objs : List S3Scan) : GoesScan :=
  { scan_time_utc :=
      match objs with
      | [] => 0
      | o :: rest => rest.foldl (fun m x => min m x.scanStart) o.scanStart
  , satellite := match objs with | [] => "" | o :: _ => o.satellite
  , region := match objs with | [] => "" | o :: _ => o.region
  , bandCount := ((objs.map (fun o => o.band)).dedup).length }

/-- Modelled from the spec: `downloader.query_s3` is not under src (only its
call site in `get_goes_sequence`).  Per section 2 (Lister) it enumerates and
flattens the candidate keys for the requested satellite, regions and channels,
and per section 4.2 the listing may over-cover the requested time range (range
alignment is left to the temporal aligner), so the model returns every stored
key matching satellite, region and channel. -/
def query_s3 (store : List S3Scan) (satellite : String) (regions : List String)
    (channels : List Nat) (start_time end_time : Int) : List S3Scan :=
  store.filter (fun o =>
    decide (o.satellite = satellite) && regions.contains o.region
      && channels.contains o.band)

/-- Modelled from the spec: `utilities.REGION_TIME_RESOLUTION_MINUTES` is not
under src.  Per the spec glossary and section 4.3 it is the minimum revisit
cadence of each region, one minute for the mesoscale windows (section 8 names
Meso1 at one minute), five for the continental scan, fifteen for the full
disk. -/
def REGION_TIME_RESOLUTION_MINUTES (region : String) : Int :=
  if region = "M1" ∨ region = "M2" then 1
  else if region = "C" then 5
  else if region = "F" then 15
  else 0

/-- The cadence computation of `get_goes_sequence` (sequence.py lines 35-47):
`max_scans_per_hour` defaults to -1, and the step is
`max(60 // max_scans_per_hour, REGION_TIME_RESOLUTION_MINUTES[region])` with
Python floor division (`Int.fdiv`); the zero-divisor case (a Python
`ZeroDivisionError`) is outside the embedding. -/
def time_resolution (max_scans_per_hour : Option Int) (region : String) : Int :=
  let m := match max_scans_per_hour with | none => -1 | some k => k
  max (Int.fdiv 60 m) (REGION_TIME_RESOLUTION_MINUTES region)

/-- The while loop of `get_goes_sequence` (sequence.py lines 48-67), with an
explicit fuel bound; `none` means the bound was exhausted with the loop still
running.  The loop condition is checked before fuel is spent, so a false
condition returns the accumulated scans at any fuel.  Faithful to the source,
the incomplete-cluster branch (`len(...) != 16`) issues `continue` without
advancing `current_time_utc`. -/
def get_goes_sequence_loop (s3_objects : List S3Scan) (end_time_utc : Int)
    (step : Int) : Nat → Int → List GoesScan → Option (List GoesScan)
  | 0, current_time_utc, scans =>
      if current_time_utc ≤ end_time_utc then none else some scans
  | fuel + 1, current_time_utc, scans =>
      if current_time_utc ≤ end_time_utc then
        let closest := find_scans_closest_to_time s3_objects current_time_utc
        if closest.length ≠ 16 then
          get_goes_sequence_loop s3_objects end_time_utc step fuel
            current_time_utc scans
        else
          get_goes_sequence_loop s3_objects end_time_utc step fuel
            (current_time_utc + step) (scans ++ [read_netcdfs closest])
      else some scans

/-- Embedding of `get_goes_sequence` (sequence.py lines 11-68) over an explicit store:
query the store, walk the cadence steps accumulating the closest well-formed
clusters, and construct the `GoesSequence`.  `none` means the loop did not
finish within the fuel bound. -/
def get_goes_sequence (store : List S3Scan) (satellite region : String)
    (start_time_utc end_time_utc : Int) (max_scans_per_hour : Option Int)
    (fuel : Nat) : Option (Except PyError GoesSequence) :=
  let s3_objects := query_s3 store satellite [region]
    (List.range' 1 16) start_time_utc end_time_utc
  let step := time_resolution max_scans_per_hour region
  (get_goes_sequence_loop s3_objects end_time_utc step fuel start_time_utc
    []).map (fun scans => GoesSequence.init (scans.map PyObj.scan))

/-- A cluster of one file per band, bands numbered 1 to n, at one scan time. -/
def mkCluster (t : Int) (n : Nat) (sat region : String) : List S3Scan :=
  (List.range' 1 n).map (fun b =>
    { scanStart := t, band := b, createdAt := 0, satellite := sat, region := region })

/-! ## Store keys and the glob planner (downloader.py) -/

/-- A store timestamp at the granularity the key hierarchy encodes: calendar
year, day of year, hour and minute (scan start truncated to the minute). -/
structure DateTime where
  year : Nat
  doy : Nat
  hour : Nat
  minute : Nat
deriving DecidableEq, Repr

/-- Lexicographic order on (year, day of year, hour, minute), the order Python
datetime comparison induces on these fields. -/
def DateTime.leb (a b : DateTime) : Bool :=
  if a.year ≠ b.year then decide (a.year < b.year)
  else if a.doy ≠ b.doy then decide (a.doy < b.doy)
  else if a.hour ≠ b.hour then decide (a.hour < b.hour)
  else decide (a.minute ≤ b.minute)

/-- A listed store object with the attributes the listing layer reads off its
key path. -/
structure S3Key where
  satellite : String
  region : String
  band : Nat
  scanStart : DateTime
  rawPath : String
deriving DecidableEq, Repr

/-- One listing call at its granularity (spec section 3, GlobPattern). -/
inductive GlobPattern where
  | minute (satellite region : String) (channel : Option Nat) (t : DateTime)
  | hour (satellite region : String) (channel : Option Nat) (year doy hour : Nat)
  | day (satellite region : String) (channel : Option Nat) (year doy : Nat)
  | year (satellite region : String) (channel : Option Nat) (y : Nat)
deriving DecidableEq, Repr

def channelMatch (channel : Option Nat) (k : S3Key) : Bool :=
  match channel with
  | none => true
  | some c => decide (k.band = c)

/-- Whether a stored key is matched by a pattern: the satellite, region and
channel parts always constrain, and the timestamp fields down to the pattern
granularity constrain while finer fields are wildcarded. -/
def GlobPattern.matchKey : GlobPattern → S3Key → Bool
  | .minute sat reg ch t, k =>
      decide (k.satellite = sat) && decide (k.region = reg) && channelMatch ch k
        && decide (k.scanStart = t)
  | .hour sat reg ch y d hr, k =>
      decide (k.satellite = sat) && decide (k.region = reg) && channelMatch ch k
        && decide (k.scanStart.year = y) && decide (k.scanStart.doy = d)
        && decide (k.scanStart.hour = hr)
  | .day sat reg ch y d, k =>
      decide (k.satellite = sat) && decide (k.region = reg) && channelMatch ch k
        && decide (k.scanStart.year = y) && decide (k.scanStart.doy = d)
  | .year sat reg ch y, k =>
      decide (k.satellite = sat) && decide (k.region = reg) && channelMatch ch k
        && decide (k.scanStart.year = y)

/-- Modelled from the spec: `utilities.decide_fastest_glob_patterns` is not
under src.  Per section 4.2, granularity escalation by span: no end time gives
one pattern pinned to the exact start minute; a range crossing a year boundary
gives one year pattern per calendar year; same year crossing a day gives one
day pattern per day of year; same day crossing an hour gives one hour pattern
per hour; within one hour a single pattern wildcards only the sub-hour
fields. -/
def decide_fastest_glob_patterns (satellite region : String)
    (start_time : DateTime) (end_time : Option DateTime) (channel : Option Nat) :
    List GlobPattern :=
  match end_time with
  | none => [.minute satellite region channel start_time]
  | some e =>
    if start_time.year ≠ e.year then
      (List.range' start_time.year (e.year - start_time.year + 1)).map
        (fun y => .year satellite region channel y)
    else if start_time.doy ≠ e.doy then
      (List.range' start_time.doy (e.doy - start_time.doy + 1)).map
        (fun d => .day satellite region channel start_time.year d)
    else if start_time.hour ≠ e.hour then
      (List.range' start_time.hour (e.hour - start_time.hour + 1)).map
        (fun h => .hour satellite region channel start_time.year start_time.doy h)
    else
      [.hour satellite region channel start_time.year start_time.doy
        start_time.hour]

/-- Modelled from the spec: `utilities.filter_filepaths` is not under src.  Per
section 4.2 the temporal aligner discards the over-matched out-of-range
listing results: only keys whose scan start lies in the closed range
survive. -/
def filter_filepaths (filepaths : List S3Key) (start_time end_time : DateTime) :
    List S3Key :=
  filepaths.filter (fun k =>
    DateTime.leb start_time k.scanStart && DateTime.leb k.scanStart end_time)

/-- Embedding of `list_s3_files` (downloader.py lines 29-66) over an explicit store: build
the glob patterns, list and flatten their matches (the `s3.glob` calls fanned
out by `utilities.imap_function` are modelled as filtering the store by each
pattern), then, when an end time is given, discard out-of-range results; when
it is absent, return the single-pattern listing as is. -/
def list_s3_files (store : List S3Key) (satellite region : String)
    (start_time : DateTime) (end_time : Option DateTime) (channel : Option Nat) :
    List S3Key :=
  let glob_patterns := decide_fastest_glob_patterns satellite region start_time
    end_time channel
  let filepaths := glob_patterns.flatMap (fun p => store.filter (p.matchKey ·))
  match end_time with
  | none => filepaths
  | some e => filter_filepaths filepaths start_time e

/-! ## Local paths and the download orchestration (downloader.py) -/

/-- Split a character list at its first slash; a list with no slash is all
first component. -/
def splitFirstSlash : List Char → List Char × List Char
  | [] => ([], [])
  | c :: cs =>
      if c = '/' then ([], cs)
      else
        let p := splitFirstSlash cs
        (c :: p.1, p.2)

/-- Drop a leading protocol marker, as `s3fs` strips `s3://` before
splitting. -/
def stripProtocol (cs : List Char) : List Char :=
  if cs.take 5 = "s3://".toList then cs.drop 5 else cs

/-- Embedding of `s3fs.core.split_path`, the external collaborator `s3_filepath_to_local`
delegates to: strip the protocol, then split at the first slash into bucket
and key; a path with no slash is all bucket with an empty key. -/
def split_path (path : String) : String × String :=
  ((splitFirstSlash (stripProtocol path.toList)).1.asString,
   (splitFirstSlash (stripProtocol path.toList)).2.asString)

/-- Embedding of `LOCAL_FILEPATH_FORMAT` (downloader.py line 21) applied: the format string
joins the local directory and the store key with one slash. -/
def LOCAL_FILEPATH_FORMAT (local_directory s3_key : String) : String :=
  local_directory ++ "/" ++ s3_key

/-- Embedding of `s3_filepath_to_local` (downloader.py lines 69-72): the local path is the
local directory followed by the key part of the store path (the bucket having
been split off by `split_path`). -/
def s3_filepath_to_local (s3_filepath local_directory : String) : String :=
  LOCAL_FILEPATH_FORMAT local_directory (split_path s3_filepath).2

/-- The argument tuple of `_download_file_mp` (downloader.py lines 23-25); the
shared filesystem handle is abstracted into the transfer effect. -/
structure DownloadFileArgs where
  s3_filepath : String
  local_directory : String
deriving DecidableEq, Repr

/-- Embedding of `_download_file_mp` (downloader.py lines 99-121) with the transfer effect
(`s3.get` and the local write) abstracted as a function returning success or
an error message; on success the local path is returned. -/
def _download_file_mp (transfer : String → String → Except String Unit)
    (args : DownloadFileArgs) : Except String String :=
  let local_path := s3_filepath_to_local args.s3_filepath args.local_directory
  match transfer args.s3_filepath local_path with
  | .ok _ => .ok local_path
  | .error e => .error e

/-- Modelled from the spec: `utilities.imap_function` is not under src.  Per
sections 4.4 and 5, every submitted task yields exactly one result, a failing
task is captured as its own failure result without cancelling the sibling
tasks, and the results are returned in task-submission order (the canonical
reordering of section 5). -/
def imap_function (f : DownloadFileArgs → Except String String)
    (function_args : List DownloadFileArgs) : List (Except String String) :=
  function_args.map f

/-- Embedding of `download_files` (downloader.py lines 124-166) over an explicit store and
transfer effect: list the matching files, then fetch them in parallel with one
result per task. -/
def download_files (transfer : String → String → Except String Unit)
    (store : List S3Key) (local_directory satellite region : String)
    (start_time : DateTime) (end_time : Option DateTime) :
    List (Except String String) :=
  let s3_filepaths := (list_s3_files store satellite region start_time end_time
    none).map (fun k => k.rawPath)
  imap_function (_download_file_mp transfer)
    (s3_filepaths.map (fun p =>
      { s3_filepath := p, local_directory := local_directory }))

deriving instance DecidableEq for Except

/-! ## Concrete fixtures used by the counterexamples and witnesses -/

/-- Store for C1: a complete cluster at minute 2 and a 10-band cluster at
minute 3 (the spec example of a partial observation). -/
def storeC1 : List S3Scan := mkCluster 2 16 "G16" "M1" ++ mkCluster 3 10 "G16" "M1"

/-- Store for C2: a single 10-band cluster at minute 0. -/
def storeC2 : List S3Scan := mkCluster 0 10 "G16" "M1"

/-- Store for C6: complete clusters at minutes 2 and 3 for the continental
region, whose minimum cadence is five minutes. -/
def storeC6 : List S3Scan := mkCluster 2 16 "G16" "C" ++ mkCluster 3 16 "G16" "C"

/-- Discovered objects for the C1 witness: a 10-band cluster at minute 3. -/
def objsC1 : List S3Scan := mkCluster 3 10 "G16" "M1"

def scanA : GoesScan :=
  { scan_time_utc := 5, satellite := "G16", region := "C", bandCount := 16 }

def scanB : GoesScan :=
  { scan_time_utc := 5, satellite := "G16", region := "C", bandCount := 10 }

def scanC : GoesScan :=
  { scan_time_utc := 7, satellite := "G16", region := "C", bandCount := 16 }

/-- The sequence `GoesSequence.init [scanA, scanB, scanC]` constructs: one
observation per distinct time, the later duplicate winning at minute 5. -/
def seq9 : GoesSequence :=
  { scans := [(5, scanB), (7, scanC)], satellite := "G16", region := "C"
  , first_scan_utc := 5, last_scan_utc := 7 }

def dtStart : DateTime := { year := 2019, doy := 300, hour := 20, minute := 0 }

def dtEnd : DateTime := { year := 2019, doy := 300, hour := 21, minute := 0 }

def dtMin : DateTime := { year := 2019, doy := 300, hour := 20, minute := 48 }

/-- A key inside the requested range of the C8 witness. -/
def keyIn : S3Key :=
  { satellite := "noaa-goes17", region := "M1", band := 2, scanStart := dtMin
  , rawPath := "noaa-goes17/ABI-L1b-RadM/2019/300/20/a.nc" }

/-- A key matched by the hour-granularity pattern but past the requested end
time, to be discarded by `filter_filepaths`. -/
def keyOut : S3Key :=
  { satellite := "noaa-goes17", region := "M1", band := 2
  , scanStart := { year := 2019, doy := 300, hour := 21, minute := 30 }
  , rawPath := "noaa-goes17/ABI-L1b-RadM/2019/300/21/b.nc" }

def storeC8 : List S3Key := [keyIn, keyOut]

/-! ## Theorems -/

/-- At a cadence step at or before the end time whose closest cluster does not
have exactly 16 bands, the loop takes the `continue` branch with unchanged
state, so it never finishes within any fuel bound. -/
theorem loop_no_advance (objs : List S3Scan) (endT step cur : Int)
    (acc : List GoesScan) (h1 : cur ≤ endT)
    (h2 : (find_scans_closest_to_time objs cur).length ≠ 16) :
    ∀ fuel, get_goes_sequence_loop objs endT step fuel cur acc = none := by
  intro fuel
  induction fuel with
  | zero => simp [get_goes_sequence_loop, h1]
  | succ n ih => simp [get_goes_sequence_loop, h1, h2, ih]

/-- C1 (amended): a cadence step at or before the end time whose
closest-matching cluster does not have the full 16 distinct bands is dropped,
not included: `get_goes_sequence` logs and retries the very same step without
advancing, so from such a step the builder loop yields no sequence at all
within any fuel bound, and in particular no returned sequence contains the
incomplete observation. -/
theorem C1_incomplete_step_dropped (s3_objects : List S3Scan)
    (end_time_utc step current_time_utc : Int) (scans : List GoesScan)
    (h1 : current_time_utc ≤ end_time_utc)
    (h2 : (find_scans_closest_to_time s3_objects current_time_utc).length ≠ 16) :
    ∀ fuel, get_goes_sequence_loop s3_objects end_time_utc step fuel
      current_time_utc scans = none :=
  loop_no_advance s3_objects end_time_utc step current_time_utc scans h1 h2

/-- Witness for C1: the 10-band cluster at minute 3 is dropped — the loop
yields nothing from that step. -/
theorem C1_incomplete_step_dropped_witness :
    ((3 : Int) ≤ 4 ∧ (find_scans_closest_to_time objsC1 3).length ≠ 16) ∧
      get_goes_sequence_loop objsC1 4 1 25 3 [] = none :=
  ⟨⟨by decide, by decide⟩,
    C1_incomplete_step_dropped objsC1 4 1 3 [] (by decide) (by decide) 25⟩

/-- Counterexample for C1, on the end-to-end example of the spec (a step whose
closest cluster has only 10 of 16 bands): the builder returns no sequence at
all — the incomplete observation is not surfaced in any returned sequence. -/
theorem C1_counterexample :
    get_goes_sequence storeC1 "G16" "M1" 2 4 none 30 = none := by decide

/-- C2 (code bug): with a store whose only cluster near the first step has 10
bands, the candidate timestamp never advances past that step — for every fuel
bound `get_goes_sequence` yields nothing, contradicting the claim that the
loop always advances and terminates while skipping bad steps. -/
theorem C2_never_terminates :
    ∀ fuel, get_goes_sequence storeC2 "G16" "M1" 0 5 none fuel = none := by
  intro fuel
  have h := loop_no_advance
    (query_s3 storeC2 "G16" ["M1"] (List.range' 1 16) 0 5) 5
    (time_resolution none "M1") 0 [] (by decide) (by decide) fuel
  simp [get_goes_sequence, h]

/-- C5 (amended): no `EmptyRangeError` exists.  With an empty store, a
non-empty requested range never terminates (the loop spins forever at the
first step), and an empty requested range (end before start) reaches
`GoesSequence.__init__` with no scans and fails with a generic `IndexError`
from `scans[0]`. -/
theorem C5_no_empty_range_error :
    (∀ (sat region : String) (s e : Int) (m : Option Int), s ≤ e →
        ∀ fuel, get_goes_sequence [] sat region s e m fuel = none) ∧
    (∀ (sat region : String) (s e : Int) (m : Option Int) (fuel : Nat), e < s →
        get_goes_sequence [] sat region s e m fuel
          = some (.error PyError.indexError)) := by
  constructor
  · intro sat region s e m hse fuel
    have h2 : (find_scans_closest_to_time
        (query_s3 [] sat [region] (List.range' 1 16) s e) s).length ≠ 16 := by
      simp [query_s3, find_scans_closest_to_time, pickClosest]
    have h := loop_no_advance (query_s3 [] sat [region] (List.range' 1 16) s e)
      e (time_resolution m region) s [] hse h2 fuel
    simp [get_goes_sequence, h]
  · intro sat region s e m fuel hes
    have hnot : ¬ (s ≤ e) := by omega
    have hloop : get_goes_sequence_loop
        (query_s3 [] sat [region] (List.range' 1 16) s e) e
        (time_resolution m region) fuel s [] = some [] := by
      cases fuel with
      | zero => simp [get_goes_sequence_loop, hnot]
      | succ n => simp [get_goes_sequence_loop, hnot]
    simp [get_goes_sequence, hloop]
    rfl

/-- Witness for C5: both branches of the amended statement at concrete
inputs. -/
theorem C5_no_empty_range_error_witness :
    ((0 : Int) ≤ 5 ∧ get_goes_sequence [] "G17" "C" 0 5 none 7 = none) ∧
    ((5 : Int) < 9 ∧ get_goes_sequence [] "G17" "C" 9 5 none 4
        = some (.error PyError.indexError)) :=
  ⟨⟨by decide, C5_no_empty_range_error.1 "G17" "C" 0 5 none (by decide) 7⟩,
   ⟨by decide, C5_no_empty_range_error.2 "G17" "C" 9 5 none 4 (by decide)⟩⟩

/-- Counterexample for C5: when nothing is found in the range the call does
not fail with a distinct catchable error — it never returns at all; and on an
empty range it fails with the generic `IndexError`, the code defining no
`EmptyRangeError`. -/
theorem C5_counterexample :
    get_goes_sequence [] "G16" "M1" 0 5 none 100 = none ∧
    get_goes_sequence [] "G16" "M1" 9 5 none 3
      = some (.error PyError.indexError) := ⟨by decide, by decide⟩

/-- A list of genuine scans always passes the type assertion. -/
theorem assert_map_scan (l : List GoesScan) :
    _assert_input_goes_scan (l.map PyObj.scan) = .ok () := by
  have h : (l.map PyObj.scan).find? (fun o => ! o.isGoesScan) = none := by
    rw [List.find?_eq_none]
    intro x hx
    rw [List.mem_map] at hx
    obtain ⟨s, _, rfl⟩ := hx
    simp [PyObj.isGoesScan]
  unfold _assert_input_goes_scan
  rw [h]

/-- Running `_parse_input` on a list of genuine scans: the assertion passes and the
dict pipeline runs on the (time, scan) pairs. -/
theorem parse_input_map_scan (l : List GoesScan) :
    GoesSequence._parse_input (l.map PyObj.scan)
      = .ok (pyDictSortedByKey (pyDictOfList
          (l.map (fun s => (s.scan_time_utc, s))))) := by
  unfold GoesSequence._parse_input
  rw [assert_map_scan, List.map_map]
  rfl

/-- C4 (amended): construction does not validate homogeneity.  For any
non-empty list of scans — heterogeneous or not — `GoesSequence.__init__`
succeeds, and the satellite and region of the sequence are copied from the
first scan of the input list with no check against the rest. -/
theorem C4_heterogeneous_accepted (s : GoesScan) (rest : List GoesScan) :
    ∃ seq, GoesSequence.init ((s :: rest).map PyObj.scan) = Except.ok seq ∧
      seq.satellite = s.satellite ∧ seq.region = s.region := by
  have h : GoesSequence.init ((s :: rest).map PyObj.scan)
      = Except.ok
        { scans := pyDictSortedByKey (pyDictOfList
            ((s :: rest).map (fun x => (x.scan_time_utc, x))))
        , satellite := s.satellite, region := s.region
        , first_scan_utc := minKeys (pyDictSortedByKey (pyDictOfList
            ((s :: rest).map (fun x => (x.scan_time_utc, x)))))
        , last_scan_utc := maxKeys (pyDictSortedByKey (pyDictOfList
            ((s :: rest).map (fun x => (x.scan_time_utc, x))))) } := by
    unfold GoesSequence.init
    rw [parse_input_map_scan]
    rfl
  exact ⟨_, h, rfl, rfl⟩

/-- Counterexample for C4: constructing from two scans with different
satellites and regions succeeds (the claim says it fails), the sequence
reporting the first scan's satellite and region. -/
theorem C4_counterexample :
    GoesSequence.init [PyObj.scan ⟨0, "G16", "C", 16⟩,
        PyObj.scan ⟨1, "G17", "F", 16⟩]
      = .ok { scans := [(0, ⟨0, "G16", "C", 16⟩), (1, ⟨1, "G17", "F", 16⟩)]
            , satellite := "G16", region := "C"
            , first_scan_utc := 0, last_scan_utc := 1 } ∧
    ("G17" : String) ≠ "G16" ∧ ("F" : String) ≠ "C" :=
  ⟨by decide, by decide, by decide⟩

/-- The membership test driving the two branches of `pyDictInsert`. -/
theorem any_key_eq (d : List (Int × GoesScan)) (k : Int) :
    (d.any (fun p => decide (p.1 = k)) = true) ↔ k ∈ d.map Prod.fst := by
  simp [List.any_eq_true]

/-- Updating an existing key leaves the key list unchanged. -/
theorem keys_pyDictInsert_of_mem (d : List (Int × GoesScan)) (k : Int)
    (v : GoesScan) (h : k ∈ d.map Prod.fst) :
    (pyDictInsert d k v).map Prod.fst = d.map Prod.fst := by
  unfold pyDictInsert
  rw [if_pos ((any_key_eq d k).2 h), List.map_map]
  apply List.map_congr_left
  intro p _
  by_cases hpk : p.1 = k
  · simp [hpk]
  · simp [hpk]

/-- Inserting a new key appends it to the key list. -/
theorem keys_pyDictInsert_of_not_mem (d : List (Int × GoesScan)) (k : Int)
    (v : GoesScan) (h : k ∉ d.map Prod.fst) :
    (pyDictInsert d k v).map Prod.fst = d.map Prod.fst ++ [k] := by
  unfold pyDictInsert
  rw [if_neg (fun hc => h ((any_key_eq d k).1 hc))]
  simp

/-- Insertion preserves distinctness of the keys. -/
theorem keys_pyDictInsert_nodup (d : List (Int × GoesScan)) (k : Int)
    (v : GoesScan) (h : (d.map Prod.fst).Nodup) :
    ((pyDictInsert d k v).map Prod.fst).Nodup := by
  by_cases hm : k ∈ d.map Prod.fst
  · rw [keys_pyDictInsert_of_mem d k v hm]; exact h
  · rw [keys_pyDictInsert_of_not_mem d k v hm]
    rw [List.nodup_append]
    refine ⟨h, List.nodup_singleton k, ?_⟩
    intro a ha hak
    rw [List.mem_singleton] at hak
    exact hm (hak ▸ ha)

/-- The keys of the dict built by the comprehension are distinct. -/
theorem keys_pyDictOfList_nodup (l : List (Int × GoesScan)) :
    ((pyDictOfList l).map Prod.fst).Nodup := by
  unfold pyDictOfList
  suffices h : ∀ d : List (Int × GoesScan), (d.map Prod.fst).Nodup →
      ((l.foldl (fun d p => pyDictInsert d p.1 p.2) d).map Prod.fst).Nodup from
    h [] (by simp)
  induction l with
  | nil => intro d hd; exact hd
  | cons p t ih =>
    intro d hd
    exact ih _ (keys_pyDictInsert_nodup d p.1 p.2 hd)

/-- Key membership after one insertion. -/
theorem mem_keys_pyDictInsert (d : List (Int × GoesScan)) (k : Int)
    (v : GoesScan) (x : Int) :
    x ∈ (pyDictInsert d k v).map Prod.fst ↔ x ∈ d.map Prod.fst ∨ x = k := by
  by_cases hm : k ∈ d.map Prod.fst
  · rw [keys_pyDictInsert_of_mem d k v hm]
    constructor
    · exact Or.inl
    · rintro (h | rfl)
      · exact h
      · exact hm
  · rw [keys_pyDictInsert_of_not_mem d k v hm]
    simp

/-- The dict built by the comprehension has exactly the keys of the input
pairs. -/
theorem mem_keys_pyDictOfList (l : List (Int × GoesScan)) (x : Int) :
    x ∈ (pyDictOfList l).map Prod.fst ↔ x ∈ l.map Prod.fst := by
  unfold pyDictOfList
  suffices h : ∀ d : List (Int × GoesScan),
      (x ∈ (l.foldl (fun d p => pyDictInsert d p.1 p.2) d).map Prod.fst ↔
        x ∈ d.map Prod.fst ∨ x ∈ l.map Prod.fst) by
    rw [h []]; simp
  induction l with
  | nil => intro d; simp
  | cons p t ih =>
    intro d
    rw [List.foldl_cons, ih, mem_keys_pyDictInsert]
    simp
    tauto

/-- Lookup of the updated key after an in-place update finds the new value. -/
theorem find?_map_update_self (d : List (Int × GoesScan)) (a : Int)
    (v : GoesScan) (h : ∃ q ∈ d, q.1 = a) :
    (d.map (fun p => if p.1 = a then (a, v) else p)).find?
      (fun p => decide (p.1 = a)) = some (a, v) := by
  induction d with
  | nil => simp at h
  | cons q t ih =>
    by_cases hq : q.1 = a
    · simp [hq]
    · have h' : ∃ q ∈ t, q.1 = a := by
        rcases h with ⟨w, hw, he⟩
        rcases List.mem_cons.1 hw with rfl | hwt
        · exact absurd he hq
        · exact ⟨w, hwt, he⟩
      simpa [hq] using ih h'

/-- Lookup of any other key is unchanged by an in-place update. -/
theorem find?_map_update_other (d : List (Int × GoesScan)) (a : Int)
    (v : GoesScan) (k : Int) (hk : k ≠ a) :
    (d.map (fun p => if p.1 = a then (a, v) else p)).find?
        (fun p => decide (p.1 = k))
      = d.find? (fun p => decide (p.1 = k)) := by
  induction d with
  | nil => simp
  | cons q t ih =>
    rw [List.map_cons]
    by_cases hq : q.1 = a
    · rw [if_pos hq]
      have hak : ¬ ((a, v) : Int × GoesScan).1 = k := fun hc => hk hc.symm
      have hqk : ¬ q.1 = k := fun hc => hk ((hq ▸ hc : a = k)).symm
      rw [List.find?_cons_of_neg _ (by simpa using hak),
        List.find?_cons_of_neg _ (by simpa using hqk)]
      exact ih
    · rw [if_neg hq]
      by_cases hqk : q.1 = k
      · rw [List.find?_cons_of_pos _ (by simpa using hqk),
          List.find?_cons_of_pos _ (by simpa using hqk)]
      · rw [List.find?_cons_of_neg _ (by simpa using hqk),
          List.find?_cons_of_neg _ (by simpa using hqk)]
        exact ih

/-- Dict assignment followed by lookup: the assigned key reads the new value,
any other key reads as before. -/
theorem pyDictGet_pyDictInsert (d : List (Int × GoesScan)) (a : Int)
    (v : GoesScan) (k : Int) :
    pyDictGet (pyDictInsert d a v) k
      = if k = a then some v else pyDictGet d k := by
  unfold pyDictInsert pyDictGet
  by_cases hmem : d.any (fun p => decide (p.1 = a)) = true
  · rw [if_pos hmem]
    by_cases hk : k = a
    · subst hk
      have h : ∃ q ∈ d, q.1 = k := by
        simpa [List.any_eq_true] using hmem
      rw [if_pos rfl, find?_map_update_self d k v h]
      rfl
    · rw [if_neg hk, find?_map_update_other d a v k hk]
  · rw [if_neg hmem]
    have hnone : d.find? (fun p => decide (p.1 = a)) = none := by
      rw [List.find?_eq_none]
      intro x hx
      simp only [decide_eq_true_eq]
      intro hxa
      exact hmem (List.any_eq_true.2 ⟨x, hx, by simp [hxa]⟩)
    rw [List.find?_append]
    by_cases hk : k = a
    · subst hk
      rw [hnone]
      simp [List.find?]
    · cases hfd : d.find? (fun p => decide (p.1 = k)) with
      | some p => simp [hk]
      | none => simp [List.find?, hk, Ne.symm hk]

/-- Folding the pairs into a dict and looking a key up reads the value of the
last pair with that key, else whatever the initial dict held. -/
theorem pyDictGet_foldl (l : List (Int × GoesScan)) :
    ∀ (d : List (Int × GoesScan)) (k : Int),
      pyDictGet (l.foldl (fun d p => pyDictInsert d p.1 p.2) d) k
        = ((l.reverse.find? (fun p => decide (p.1 = k))).map Prod.snd).or
            (pyDictGet d k) := by
  induction l with
  | nil => intro d k; simp
  | cons p t ih =>
    intro d k
    rw [List.foldl_cons, ih, List.reverse_cons, List.find?_append]
    cases hft : t.reverse.find? (fun q => decide (q.1 = k)) with
    | some q => simp
    | none =>
      simp only [Option.none_or]
      rw [pyDictGet_pyDictInsert]
      by_cases hk : k = p.1
      · have hpk : p.1 = k := hk.symm
        rw [List.find?_cons_of_pos _ (by simpa using hpk)]
        simp [hk]
      · have hpk : ¬ p.1 = k := fun hc => hk hc.symm
        rw [List.find?_cons_of_neg _ (by simpa using hpk)]
        simp [hk]

/-- Lookup in the dict built by the comprehension reads the value of the last
pair with that key. -/
theorem pyDictGet_pyDictOfList (l : List (Int × GoesScan)) (k : Int) :
    pyDictGet (pyDictOfList l) k
      = (l.reverse.find? (fun p => decide (p.1 = k))).map Prod.snd := by
  unfold pyDictOfList
  rw [pyDictGet_foldl]
  cases h : (l.reverse.find? (fun p => decide (p.1 = k))).map Prod.snd with
  | some v => simp
  | none => simp [pyDictGet]

/-- The keys of the rebuilt dict are the sorted keys of the input dict. -/
theorem keys_pyDictSortedByKey (d : List (Int × GoesScan)) :
    (pyDictSortedByKey d).map Prod.fst
      = (d.map Prod.fst).insertionSort (· ≤ ·) := by
  unfold pyDictSortedByKey
  rw [List.map_map]
  exact List.map_id _

/-- Rebuilding the dict in key order preserves its size. -/
theorem length_pyDictSortedByKey (d : List (Int × GoesScan)) :
    (pyDictSortedByKey d).length = d.length := by
  unfold pyDictSortedByKey
  rw [List.length_map, (List.perm_insertionSort _ _).length_eq, List.length_map]

/-- A pair of the rebuilt dict is a lookup hit of the original dict. -/
theorem mem_pyDictSortedByKey (d : List (Int × GoesScan)) (t : Int)
    (s : GoesScan) (h : (t, s) ∈ pyDictSortedByKey d) :
    pyDictGet d t = some s := by
  unfold pyDictSortedByKey at h
  rw [List.mem_map] at h
  obtain ⟨k, hk, he⟩ := h
  have hk' : k ∈ d.map Prod.fst := (List.perm_insertionSort _ _).mem_iff.1 hk
  have hsome : (d.find? (fun p => decide (p.1 = k))).isSome := by
    rw [List.find?_isSome]
    rw [List.mem_map] at hk'
    obtain ⟨p, hp, hpk⟩ := hk'
    exact ⟨p, hp, by simp [hpk]⟩
  obtain ⟨p, hp⟩ := Option.isSome_iff_exists.1 hsome
  obtain ⟨rfl, hs⟩ := Prod.mk.injEq .. ▸ he
  rw [← hs]
  simp [pyDictGet, hp]

/-- Inversion of a successful construction: the scans attribute is the sorted
dict built from the input pairs. -/
theorem init_ok_scans (objs : List PyObj) (seq : GoesSequence)
    (h : GoesSequence.init objs = .ok seq) :
    seq.scans = pyDictSortedByKey (pyDictOfList
      (objs.map (fun o => (o.asScan.scan_time_utc, o.asScan)))) := by
  unfold GoesSequence.init GoesSequence._parse_input at h
  cases ha : _assert_input_goes_scan objs with
  | error e => rw [ha] at h; simp at h
  | ok u =>
    rw [ha] at h
    cases objs with
    | nil => simp at h
    | cons a t =>
      simp only [Except.ok.injEq] at h
      rw [← h]

/-- C6 (amended): the timestamps of every successfully constructed sequence
are strictly increasing, and the builder steps candidate timestamps by the
maximum of the requested cadence (`60 // max_scans_per_hour`, -1 when absent)
and the minimum cadence of the region.  The observations themselves carry the
matched cluster timestamps, which the counterexample shows can be closer
together than that step. -/
theorem C6_strictly_increasing_and_step :
    (∀ (objs : List PyObj) (seq : GoesSequence),
        GoesSequence.init objs = .ok seq →
        List.Sorted (· < ·) (seq.scans.map Prod.fst)) ∧
    (∀ (m : Int) (region : String),
        time_resolution (some m) region
          = max (Int.fdiv 60 m) (REGION_TIME_RESOLUTION_MINUTES region)) ∧
    (∀ region : String,
        time_resolution none region
          = max (Int.fdiv 60 (-1)) (REGION_TIME_RESOLUTION_MINUTES region)) := by
  refine ⟨?_, fun m region => rfl, fun region => rfl⟩
  intro objs seq h
  rw [init_ok_scans objs seq h, keys_pyDictSortedByKey]
  have hnd : ((pyDictOfList (objs.map
      (fun o => (o.asScan.scan_time_utc, o.asScan)))).map Prod.fst).Nodup :=
    keys_pyDictOfList_nodup _
  have hs := List.sorted_insertionSort (α := Int) (· ≤ ·)
    ((pyDictOfList (objs.map
      (fun o => (o.asScan.scan_time_utc, o.asScan)))).map Prod.fst)
  have hnd2 := (List.perm_insertionSort (α := Int) (· ≤ ·) _).symm.nodup hnd
  exact hs.lt_of_le hnd2

/-- Witness for C6: a concrete construction whose timestamps come out
strictly increasing. -/
theorem C6_strictly_increasing_witness :
    GoesSequence.init [PyObj.scan ⟨7, "G16", "F", 16⟩,
        PyObj.scan ⟨4, "G16", "F", 16⟩]
      = Except.ok { scans := [(4, ⟨4, "G16", "F", 16⟩), (7, ⟨7, "G16", "F", 16⟩)]
                  , satellite := "G16", region := "F"
                  , first_scan_utc := 4, last_scan_utc := 7 } ∧
    List.Sorted (· < ·)
      (({ scans := [(4, ⟨4, "G16", "F", 16⟩), (7, ⟨7, "G16", "F", 16⟩)]
        , satellite := "G16", region := "F"
        , first_scan_utc := 4, last_scan_utc := 7 } : GoesSequence).scans.map
          Prod.fst) :=
  ⟨by decide, C6_strictly_increasing_and_step.1
    [PyObj.scan ⟨7, "G16", "F", 16⟩, PyObj.scan ⟨4, "G16", "F", 16⟩]
    { scans := [(4, ⟨4, "G16", "F", 16⟩), (7, ⟨7, "G16", "F", 16⟩)]
    , satellite := "G16", region := "F"
    , first_scan_utc := 4, last_scan_utc := 7 } (by decide)⟩

/-- Counterexample for C6: with complete clusters at minutes 2 and 3 in the
continental region (minimum cadence five minutes), the returned observations
are one minute apart — finer than the region's revisit cadence, because the
observation timestamps come from the matched clusters, not from the cadence
steps. -/
theorem C6_counterexample :
    get_goes_sequence storeC6 "G16" "C" 0 5 none 10
      = some (Except.ok
          { scans := [(2, ⟨2, "G16", "C", 16⟩), (3, ⟨3, "G16", "C", 16⟩)]
          , satellite := "G16", region := "C"
          , first_scan_utc := 2, last_scan_utc := 3 }) ∧
    (3 : Int) - 2 < REGION_TIME_RESOLUTION_MINUTES "C" := ⟨by decide, by decide⟩

/-- C9: constructing from scans with duplicate scan times keeps, for each
time, exactly the last scan with that time in input-list order, and the
sequence's length is the number of distinct scan times, not the input
length. -/
theorem C9_last_duplicate_wins (scans : List GoesScan) (seq : GoesSequence)
    (h : GoesSequence.init (scans.map PyObj.scan) = .ok seq) :
    seq.scans.length = (scans.map (fun s => s.scan_time_utc)).dedup.length ∧
    ∀ t s, (t, s) ∈ seq.scans →
      scans.reverse.find? (fun x => decide (x.scan_time_utc = t)) = some s := by
  have hscans : seq.scans = pyDictSortedByKey (pyDictOfList
      (scans.map (fun s => (s.scan_time_utc, s)))) := by
    have hinv := init_ok_scans (scans.map PyObj.scan) seq h
    rw [List.map_map] at hinv
    exact hinv
  constructor
  · rw [hscans, length_pyDictSortedByKey]
    have hnd := keys_pyDictOfList_nodup (scans.map (fun s => (s.scan_time_utc, s)))
    have h1 : ((pyDictOfList (scans.map
          (fun s => (s.scan_time_utc, s)))).map Prod.fst).toFinset
        = ((scans.map (fun s => (s.scan_time_utc, s))).map Prod.fst).toFinset := by
      ext x
      simp only [List.mem_toFinset]
      exact mem_keys_pyDictOfList _ x
    calc (pyDictOfList (scans.map (fun s => (s.scan_time_utc, s)))).length
        = ((pyDictOfList (scans.map
            (fun s => (s.scan_time_utc, s)))).map Prod.fst).length := by
          rw [List.length_map]
      _ = ((pyDictOfList (scans.map
            (fun s => (s.scan_time_utc, s)))).map Prod.fst).dedup.length := by
          rw [hnd.dedup]
      _ = ((pyDictOfList (scans.map
            (fun s => (s.scan_time_utc, s)))).map Prod.fst).toFinset.card :=
          (List.card_toFinset _).symm
      _ = ((scans.map (fun s => (s.scan_time_utc, s))).map Prod.fst).toFinset.card := by
          rw [h1]
      _ = ((scans.map (fun s => (s.scan_time_utc, s))).map Prod.fst).dedup.length :=
          List.card_toFinset _
      _ = (scans.map (fun s => s.scan_time_utc)).dedup.length := by
          rw [List.map_map]
          rfl
  · intro t s hm
    rw [hscans] at hm
    have hget := mem_pyDictSortedByKey _ _ _ hm
    rw [pyDictGet_pyDictOfList, ← List.map_reverse, List.find?_map] at hget
    have hc : ((fun p : Int × GoesScan => decide (p.1 = t))
          ∘ (fun s : GoesScan => (s.scan_time_utc, s)))
        = (fun x : GoesScan => decide (x.scan_time_utc = t)) := rfl
    rw [hc] at hget
    cases hfo : scans.reverse.find? (fun x => decide (x.scan_time_utc = t)) with
    | none => rw [hfo] at hget; simp at hget
    | some x =>
      rw [hfo] at hget
      simp at hget
      rw [hget]

/-- Witness for C9: with two scans at minute 5 (the later one with band count
10) and one at minute 7, the sequence has length 2 and maps minute 5 to the
later duplicate. -/
theorem C9_last_duplicate_wins_witness :
    GoesSequence.init ([scanA, scanB, scanC].map PyObj.scan) = Except.ok seq9 ∧
    seq9.scans.length
      = ([scanA, scanB, scanC].map (fun s => s.scan_time_utc)).dedup.length ∧
    (5, scanB) ∈ seq9.scans ∧
    [scanA, scanB, scanC].reverse.find?
      (fun x => decide (x.scan_time_utc = 5)) = some scanB :=
  ⟨by decide, (C9_last_duplicate_wins [scanA, scanB, scanC] seq9 (by decide)).1,
    by decide,
    (C9_last_duplicate_wins [scanA, scanB, scanC] seq9 (by decide)).2 5 scanB
      (by decide)⟩

/-- C10: `GoesSequence.__init__` raises `ValueError` exactly when some element
of the input is not a `GoesScan` — the type assertion runs inside
`_parse_input`, the first statement of the constructor, before any sequence
attribute is computed, so on that error no sequence value is produced (an
empty input instead raises `IndexError`, not `ValueError`). -/
theorem C10_value_error_iff_bad_element (objs : List PyObj) :
    (∃ msg, GoesSequence.init objs = .error (.valueError msg)) ↔
      ∃ t, PyObj.other t ∈ objs := by
  constructor
  · rintro ⟨msg, h⟩
    unfold GoesSequence.init GoesSequence._parse_input
      _assert_input_goes_scan at h
    cases hf : objs.find? (fun o => ! o.isGoesScan) with
    | none =>
      rw [hf] at h
      cases objs with
      | nil => simp at h
      | cons a t => simp at h
    | some o =>
      have hmem := List.mem_of_find?_eq_some hf
      have hpred := List.find?_some hf
      cases o with
      | scan s => simp [PyObj.isGoesScan] at hpred
      | other t => exact ⟨t, hmem⟩
  · rintro ⟨t, hmem⟩
    have hsome : (objs.find? (fun o => ! o.isGoesScan)).isSome := by
      rw [List.find?_isSome]
      exact ⟨.other t, hmem, rfl⟩
    obtain ⟨o, ho⟩ := Option.isSome_iff_exists.1 hsome
    refine ⟨"Input must be of type list of GoesScan. Found " ++ o.typeName, ?_⟩
    unfold GoesSequence.init GoesSequence._parse_input _assert_input_goes_scan
    rw [ho]

/-- Splitting at the first slash inverts prepending a slash-free prefix. -/
theorem splitFirstSlash_append (b k : List Char) (hb : '/' ∉ b) :
    splitFirstSlash (b ++ '/' :: k) = (b, k) := by
  induction b with
  | nil => simp [splitFirstSlash]
  | cons c t ih =>
    have hc : ¬ c = '/' := fun h => hb (h ▸ List.mem_cons_self c t)
    have ht : '/' ∉ t := fun h => hb (List.mem_cons_of_mem c h)
    simp [splitFirstSlash, hc, ih ht]

/-- C3: the parallel download returns exactly one result per listed task, and
each result is exactly the outcome of its own task — a failing transfer shows
up as the failure result of that task alone, and every other result is
whatever its own task produced, untouched. -/
theorem C3_one_result_per_task (transfer : String → String → Except String Unit)
    (store : List S3Key) (local_directory satellite region : String)
    (start_time : DateTime) (end_time : Option DateTime) :
    (download_files transfer store local_directory satellite region start_time
        end_time).length
      = (list_s3_files store satellite region start_time end_time none).length ∧
    ∀ j : Nat,
      (download_files transfer store local_directory satellite region
          start_time end_time)[j]?
        = ((list_s3_files store satellite region start_time end_time
            none)[j]?).map (fun k => _download_file_mp transfer
              { s3_filepath := k.rawPath
              , local_directory := local_directory }) := by
  constructor
  · simp [download_files, imap_function]
  · intro j
    simp [download_files, imap_function, Option.map_map]
    rfl

/-- C7: the local destination of a fetched remote object mirrors the store's
key structure under the chosen root — the protocol and bucket are split off
and the remaining key (whose leading segment is the product identifier) is
joined to the root, deterministically, so re-running materialization
reproduces the same paths. -/
theorem C7_local_path_mirrors_key (bucket key root : String)
    (hb : '/' ∉ bucket.toList) :
    s3_filepath_to_local ("s3://" ++ bucket ++ "/" ++ key) root
      = root ++ "/" ++ key := by
  have hdata : ("s3://" ++ bucket ++ "/" ++ key).toList
      = "s3://".toList ++ (bucket.toList ++ '/' :: key.toList) := by
    show ("s3://" ++ bucket ++ "/" ++ key).data = _
    simp [String.data_append]
  have hstrip : stripProtocol (("s3://" ++ bucket ++ "/" ++ key).toList)
      = bucket.toList ++ '/' :: key.toList := by
    rw [hdata]
    unfold stripProtocol
    rw [List.take_left' (by rfl), if_pos rfl, List.drop_left' (by rfl)]
  unfold s3_filepath_to_local split_path LOCAL_FILEPATH_FORMAT
  rw [hstrip, splitFirstSlash_append bucket.toList key.toList hb]
  rfl

/-- Witness for C7: a realistic store path lands at the root followed by the
key below the bucket. -/
theorem C7_local_path_mirrors_key_witness :
    ('/' ∉ "noaa-goes17".toList) ∧
    s3_filepath_to_local
        ("s3://" ++ "noaa-goes17" ++ "/" ++ "ABI-L1b-RadM/2019/300/20/f.nc")
        "/data"
      = "/data" ++ "/" ++ "ABI-L1b-RadM/2019/300/20/f.nc" :=
  ⟨by decide, C7_local_path_mirrors_key "noaa-goes17"
    "ABI-L1b-RadM/2019/300/20/f.nc" "/data" (by decide)⟩

/-- C8: with an end time, every listed file has its scan start inside the
closed requested range (over-matched listing results are discarded before
returning); without one, the plan is a single exact-minute pattern and every
listed file's scan start equals the requested start time. -/
theorem C8_listing_range (store : List S3Key) (satellite region : String)
    (channel : Option Nat) (start_time e : DateTime) :
    (∀ k, k ∈ list_s3_files store satellite region start_time (some e) channel →
        DateTime.leb start_time k.scanStart = true ∧
        DateTime.leb k.scanStart e = true) ∧
    (decide_fastest_glob_patterns satellite region start_time none
        channel).length = 1 ∧
    (∀ k, k ∈ list_s3_files store satellite region start_time none channel →
        k.scanStart = start_time) := by
  refine ⟨?_, rfl, ?_⟩
  · intro k hk
    unfold list_s3_files at hk
    simp only [filter_filepaths, List.mem_filter, Bool.and_eq_true] at hk
    exact ⟨hk.2.1, hk.2.2⟩
  · intro k hk
    unfold list_s3_files decide_fastest_glob_patterns at hk
    simp only [List.flatMap_cons, List.flatMap_nil, List.append_nil,
      List.mem_filter, GlobPattern.matchKey, Bool.and_eq_true,
      decide_eq_true_eq] at hk
    exact hk.2.2

/-- Witness for C8: the in-range key of the concrete store is listed and lies
in the range; the exact-minute lookup lists it with the matching scan
start. -/
theorem C8_listing_range_witness :
    (keyIn ∈ list_s3_files storeC8 "noaa-goes17" "M1" dtStart (some dtEnd) none ∧
     DateTime.leb dtStart keyIn.scanStart = true ∧
     DateTime.leb keyIn.scanStart dtEnd = true) ∧
    (keyIn ∈ list_s3_files storeC8 "noaa-goes17" "M1" dtMin none none ∧
     keyIn.scanStart = dtMin) :=
  ⟨⟨by decide,
    (C8_listing_range storeC8 "noaa-goes17" "M1" none dtStart dtEnd).1 keyIn
      (by decide)⟩,
   ⟨by decide,
    (C8_listing_range storeC8 "noaa-goes17" "M1" none dtMin dtEnd).2.2 keyIn
      (by decide)⟩⟩

end Wildfire
